import Mathlib

/-!
Shallow embedding of the Grand Comics Database talker
(`gcd/gcd.py` of mizaki/comictagger-gcd-talker) and proofs about it.

External collaborators (sqlite result sets, the comictalker cache, the
comicapi helper functions, the HTML parser and the network) are modelled as
environment data: every query result, cached blob and fetched page is a field
of an `Env` record, and the control flow of the Python functions is translated
over that environment.  Python exceptions are modelled with `Except`.
-/

namespace GCD

/-! ## Python `str.split` for one- and two-character separators

`split1 c` models Python `s.split(sep)` for the one-character separator
`sep = c` (used with `"\n"` and `"?"`), and `split2 c1 c2` models it for a
two-character separator `sep = c1c2` (used with `"\n\n"` and `"; "`).
Both scan left to right and cut at each non-overlapping occurrence, exactly
like CPython. -/

/-- Re-attach the character that did not start a separator occurrence to the
head token of the remaining split. -/
def consHead (a : Char) : List (List Char) → List (List Char)
  | [] => [[a]]
  | h :: t => (a :: h) :: t

def split1 (c : Char) : List Char → List (List Char)
  | [] => [[]]
  | a :: as =>
    if a = c then [] :: split1 c as
    else consHead a (split1 c as)

def split2 (c1 c2 : Char) : List Char → List (List Char)
  | [] => [[]]
  | [a] => [[a]]
  | a :: b :: rest =>
    if a = c1 ∧ b = c2 then [] :: split2 c1 c2 rest
    else consHead a (split2 c1 c2 (b :: rest))

/-- Python `sep.join(parts)` at the character-list level. -/
def intercalateL (d : List Char) : List (List Char) → List Char
  | [] => []
  | [x] => x
  | x :: y :: t => x ++ d ++ intercalateL d (y :: t)

def pysplit1 (c : Char) (s : String) : List String :=
  (split1 c s.data).map (fun l => ⟨l⟩)

def pysplit2 (c1 c2 : Char) (s : String) : List String :=
  (split2 c1 c2 s.data).map (fun l => ⟨l⟩)

/-- Python `sep.join(l)`. -/
def joinSep (sep : String) : List String → String
  | [] => ""
  | [x] => x
  | x :: y :: t => x ++ sep ++ joinSep sep (y :: t)

/-! ### Lemmas about the splitters -/

theorem consHead_cons (a : Char) (h : List Char) (t : List (List Char)) :
    consHead a (h :: t) = (a :: h) :: t := rfl

theorem split1_cons (c a : Char) (as : List Char) :
    split1 c (a :: as)
      = if a = c then [] :: split1 c as else consHead a (split1 c as) := rfl

theorem split1_no_occ (c : Char) (s : List Char) (h : c ∉ s) : split1 c s = [s] := by
  induction s with
  | nil => rfl
  | cons a as ih =>
    have hac : ¬ a = c := fun hh => h (hh ▸ List.mem_cons_self a as)
    have has : c ∉ as := fun hh => h (List.mem_cons_of_mem a hh)
    rw [split1_cons, if_neg hac, ih has, consHead_cons]

theorem split1_append (c : Char) (x r : List Char) (h : c ∉ x) :
    split1 c (x ++ c :: r) = x :: split1 c r := by
  induction x with
  | nil => simp [split1_cons]
  | cons a as ih =>
    have hac : ¬ a = c := fun hh => h (hh ▸ List.mem_cons_self a as)
    have has : c ∉ as := fun hh => h (List.mem_cons_of_mem a hh)
    rw [List.cons_append, split1_cons, if_neg hac, ih has, consHead_cons]

theorem split1_intercalate (c : Char) (L : List (List Char))
    (h : ∀ x ∈ L, c ∉ x) (hne : L ≠ []) :
    split1 c (intercalateL [c] L) = L := by
  induction L with
  | nil => exact absurd rfl hne
  | cons x ys ih =>
    cases ys with
    | nil => simpa [intercalateL] using split1_no_occ c x (h x (by simp))
    | cons y t =>
      have hx : c ∉ x := h x (by simp)
      have hrest : ∀ z ∈ y :: t, c ∉ z := fun z hz => h z (List.mem_cons_of_mem x hz)
      have : intercalateL [c] (x :: y :: t) = x ++ c :: intercalateL [c] (y :: t) := by
        simp [intercalateL]
      rw [this, split1_append c x _ hx, ih hrest (by simp)]

theorem split2_cons_cons (c1 c2 a b : Char) (rest : List Char) :
    split2 c1 c2 (a :: b :: rest)
      = if a = c1 ∧ b = c2 then [] :: split2 c1 c2 rest
        else consHead a (split2 c1 c2 (b :: rest)) := rfl

theorem split2_cons_sep (c1 c2 : Char) (r : List Char) :
    split2 c1 c2 (c1 :: c2 :: r) = [] :: split2 c1 c2 r := by
  rw [split2_cons_cons, if_pos ⟨rfl, rfl⟩]

theorem split2_no_occ (c1 c2 : Char) (s : List Char) (h : c1 ∉ s) :
    split2 c1 c2 s = [s] := by
  induction s with
  | nil => rfl
  | cons a as ih =>
    have hac : ¬ a = c1 := fun hh => h (hh ▸ List.mem_cons_self a as)
    have has : c1 ∉ as := fun hh => h (List.mem_cons_of_mem a hh)
    cases as with
    | nil => rfl
    | cons b bs =>
      have hcond : ¬ (a = c1 ∧ b = c2) := fun hh => hac hh.1
      rw [split2_cons_cons, if_neg hcond, ih has, consHead_cons]

theorem split2_append (c1 c2 : Char) (x r : List Char) (h : c1 ∉ x) :
    split2 c1 c2 (x ++ c1 :: c2 :: r) = x :: split2 c1 c2 r := by
  induction x with
  | nil => simpa using split2_cons_sep c1 c2 r
  | cons a as ih =>
    have hac : ¬ a = c1 := fun hh => h (hh ▸ List.mem_cons_self a as)
    have has : c1 ∉ as := fun hh => h (List.mem_cons_of_mem a hh)
    cases as with
    | nil =>
      have hcond : ¬ (a = c1 ∧ c1 = c2) := fun hh => hac hh.1
      show split2 c1 c2 (a :: c1 :: c2 :: r) = [a] :: split2 c1 c2 r
      rw [split2_cons_cons, if_neg hcond, split2_cons_sep, consHead_cons]
    | cons b bs =>
      have hcond : ¬ (a = c1 ∧ b = c2) := fun hh => hac hh.1
      have hstep := ih has
      simp only [List.cons_append] at hstep ⊢
      rw [split2_cons_cons, if_neg hcond, hstep, consHead_cons]

theorem split2_intercalate (c1 c2 : Char) (L : List (List Char))
    (h : ∀ x ∈ L, c1 ∉ x) (hne : L ≠ []) :
    split2 c1 c2 (intercalateL [c1, c2] L) = L := by
  induction L with
  | nil => exact absurd rfl hne
  | cons x ys ih =>
    cases ys with
    | nil => simpa [intercalateL] using split2_no_occ c1 c2 x (h x (by simp))
    | cons y t =>
      have hx : c1 ∉ x := h x (by simp)
      have hrest : ∀ z ∈ y :: t, c1 ∉ z := fun z hz => h z (List.mem_cons_of_mem x hz)
      have : intercalateL [c1, c2] (x :: y :: t)
          = x ++ c1 :: c2 :: intercalateL [c1, c2] (y :: t) := by
        simp [intercalateL]
      rw [this, split2_append c1 c2 x _ hx, ih hrest (by simp)]

/-- Freeness from a two-character separator: no two consecutive characters
form the occurrence `[c1, c2]`.  This is exactly what it means for a Python
string not to contain the separator `c1c2`. -/
def free2 (c1 c2 : Char) : List Char → Bool
  | [] => true
  | [_] => true
  | a :: b :: rest => (decide ¬ (a = c1 ∧ b = c2)) && free2 c1 c2 (b :: rest)

theorem split2_of_free2 (c1 c2 : Char) (s : List Char) (h : free2 c1 c2 s = true) :
    split2 c1 c2 s = [s] := by
  induction s with
  | nil => rfl
  | cons a as ih =>
    cases as with
    | nil => rfl
    | cons b bs =>
      have h' := h
      simp only [free2, Bool.and_eq_true, decide_eq_true_eq] at h'
      rw [split2_cons_cons, if_neg h'.1, ih h'.2, consHead_cons]

theorem split2_append_free2 (c1 c2 : Char) (hne : c1 ≠ c2) (x r : List Char)
    (h : free2 c1 c2 x = true) :
    split2 c1 c2 (x ++ c1 :: c2 :: r) = x :: split2 c1 c2 r := by
  induction x with
  | nil => simpa using split2_cons_sep c1 c2 r
  | cons a as ih =>
    cases as with
    | nil =>
      have hcond : ¬ (a = c1 ∧ c1 = c2) := fun hh => hne hh.2
      show split2 c1 c2 (a :: c1 :: c2 :: r) = [a] :: split2 c1 c2 r
      rw [split2_cons_cons, if_neg hcond, split2_cons_sep, consHead_cons]
    | cons b bs =>
      have h' := h
      simp only [free2, Bool.and_eq_true, decide_eq_true_eq] at h'
      have hstep := ih h'.2
      simp only [List.cons_append] at hstep ⊢
      rw [split2_cons_cons, if_neg h'.1, hstep, consHead_cons]

theorem split2_intercalate_free2 (c1 c2 : Char) (hne : c1 ≠ c2)
    (L : List (List Char)) (h : ∀ x ∈ L, free2 c1 c2 x = true) (hL : L ≠ []) :
    split2 c1 c2 (intercalateL [c1, c2] L) = L := by
  induction L with
  | nil => exact absurd rfl hL
  | cons x ys ih =>
    cases ys with
    | nil => simpa [intercalateL] using split2_of_free2 c1 c2 x (h x (by simp))
    | cons y t =>
      have hx := h x (by simp)
      have hrest : ∀ z ∈ y :: t, free2 c1 c2 z = true :=
        fun z hz => h z (List.mem_cons_of_mem x hz)
      have hstep : intercalateL [c1, c2] (x :: y :: t)
          = x ++ c1 :: c2 :: intercalateL [c1, c2] (y :: t) := by
        simp [intercalateL]
      rw [hstep, split2_append_free2 c1 c2 hne x _ hx, ih hrest (by simp)]

/-! ### Lifting to `String` -/

theorem string_mk_data (s : String) : String.mk s.data = s := rfl

theorem string_data_append (s t : String) : (s ++ t).data = s.data ++ t.data := rfl

theorem string_ne_empty_iff (s : String) : s ≠ "" ↔ s.data ≠ [] := by
  constructor
  · intro h hd
    exact h (by cases s with | mk d => cases hd; rfl)
  · intro h he
    exact h (by cases he; rfl)

theorem joinSep_data (sep : String) (l : List String) :
    (joinSep sep l).data = intercalateL sep.data (l.map String.data) := by
  induction l with
  | nil => rfl
  | cons x ys ih =>
    cases ys with
    | nil => rfl
    | cons y t =>
      show (x ++ sep ++ joinSep sep (y :: t)).data = _
      rw [string_data_append, string_data_append, ih]
      rfl

theorem joinSep_ne_empty (sep : String) (x : String) (l : List String)
    (hx : x ≠ "") : joinSep sep (x :: l) ≠ "" := by
  rw [string_ne_empty_iff] at hx ⊢
  cases l with
  | nil => exact hx
  | cons y t =>
    show (x ++ sep ++ joinSep sep (y :: t)).data ≠ []
    rw [string_data_append, string_data_append]
    intro hcontra
    exact hx (List.append_eq_nil.mp (List.append_eq_nil.mp hcontra).1).1

theorem pysplit1_join (c : Char) (l : List String) (hne : l ≠ [])
    (h : ∀ s ∈ l, c ∉ s.data) :
    pysplit1 c (joinSep (String.mk [c]) l) = l := by
  unfold pysplit1
  rw [joinSep_data]
  rw [split1_intercalate c (l.map String.data)
    (by intro x hx
        obtain ⟨s, hs, rfl⟩ := List.mem_map.mp hx
        exact h s hs)
    (by simpa using hne)]
  rw [List.map_map]
  have : (fun l => (⟨l⟩ : String)) ∘ String.data = id := by
    funext s; exact string_mk_data s
  rw [this, List.map_id]

theorem pysplit2_join (c1 c2 : Char) (l : List String) (hne : l ≠ [])
    (h : ∀ s ∈ l, c1 ∉ s.data) :
    pysplit2 c1 c2 (joinSep (String.mk [c1, c2]) l) = l := by
  unfold pysplit2
  rw [joinSep_data]
  rw [split2_intercalate c1 c2 (l.map String.data)
    (by intro x hx
        obtain ⟨s, hs, rfl⟩ := List.mem_map.mp hx
        exact h s hs)
    (by simpa using hne)]
  rw [List.map_map]
  have : (fun l => (⟨l⟩ : String)) ∘ String.data = id := by
    funext s; exact string_mk_data s
  rw [this, List.map_id]

theorem pysplit2_join_free2 (c1 c2 : Char) (hne : c1 ≠ c2) (l : List String)
    (hl : l ≠ []) (h : ∀ s ∈ l, free2 c1 c2 s.data = true) :
    pysplit2 c1 c2 (joinSep (String.mk [c1, c2]) l) = l := by
  unfold pysplit2
  rw [joinSep_data]
  rw [split2_intercalate_free2 c1 c2 hne (l.map String.data)
    (by intro x hx
        obtain ⟨s, hs, rfl⟩ := List.mem_map.mp hx
        exact h s hs)
    (by simpa using hl)]
  rw [List.map_map]
  have : (fun l => (⟨l⟩ : String)) ∘ String.data = id := by
    funext s; exact string_mk_data s
  rw [this, List.map_id]

/-! ## Row fields and field decoding

A sqlite row is modelled as a record.  A column that can be missing from the
row dictionary altogether (because the fallback query does not select it) and
can also be SQL NULL is `Option (Option String)`: `none` is an absent key,
`some none` is a NULL value, `some (some s)` is the string `s`. -/

/-- Python truthiness of an optional string: `None` and `""` are falsy. -/
def truthyS : Option String → Bool
  | none => false
  | some s => s ≠ ""

/-- The decode used by `_format_gcd_issue` in the complete shape:
`row["f"].split(sep) if "f" in row and row["f"] else []`. -/
def decodeField (split : String → List String) : Option (Option String) → List String
  | none => []
  | some v => if truthyS v then split (v.getD "") else []

/-- The decode used by `_format_gcd_issue` in the summary shape:
`row["f"].split("\n") if "f" in row and row["f"] is not None else []`. -/
def decodeFieldSummary (split : String → List String) : Option (Option String) → List String
  | some (some s) => split s
  | _ => []

/-- SQL `GROUP_CONCAT(CASE WHEN x IS NOT NULL AND x != THE_EMPTY_STRING THEN x END, sep)`:
empty and NULL entries are excluded before joining; the aggregate is NULL
(`some none`: the column is still present in the row) when nothing remains. -/
def group_concat (sep : String) (l : List String) : Option (Option String) :=
  if l.filter (fun s => s ≠ "") = [] then some none
  else some (some (joinSep sep (l.filter (fun s => s ≠ ""))))

theorem decodeField_none (split : String → List String) :
    decodeField split none = [] := rfl

theorem decodeField_some_none (split : String → List String) :
    decodeField split (some none) = [] := rfl

theorem decodeField_some_some (split : String → List String) (s : String)
    (hs : s ≠ "") : decodeField split (some (some s)) = split s := by
  simp [decodeField, truthyS, hs]

theorem filter_ne_empty_cons (l : List String) (hf : l.filter (fun s => s ≠ "") ≠ []) :
    ∃ x xs, l.filter (fun s => s ≠ "") = x :: xs ∧ x ≠ "" := by
  cases hfl : l.filter (fun s => s ≠ "") with
  | nil => exact absurd hfl hf
  | cons x xs =>
    refine ⟨x, xs, rfl, ?_⟩
    have : x ∈ l.filter (fun s => s ≠ "") := hfl ▸ List.mem_cons_self x xs
    simpa using List.of_mem_filter this

theorem decode_group_concat_1 (c : Char) (l : List String)
    (h : ∀ s ∈ l, c ∉ s.data) :
    decodeField (pysplit1 c) (group_concat (String.mk [c]) l)
      = l.filter (fun s => s ≠ "") := by
  unfold group_concat
  by_cases hf : l.filter (fun s => s ≠ "") = []
  · rw [if_pos hf, hf]; rfl
  · rw [if_neg hf]
    obtain ⟨x, xs, hx, hxne⟩ := filter_ne_empty_cons l hf
    have hjoined : joinSep (String.mk [c]) (l.filter (fun s => s ≠ "")) ≠ "" := by
      rw [hx]; exact joinSep_ne_empty _ x xs hxne
    rw [decodeField_some_some _ _ hjoined]
    exact pysplit1_join c _ hf (fun s hs => h s (List.mem_of_mem_filter hs))

theorem decode_group_concat_2 (c1 c2 : Char) (l : List String)
    (h : ∀ s ∈ l, c1 ∉ s.data) :
    decodeField (pysplit2 c1 c2) (group_concat (String.mk [c1, c2]) l)
      = l.filter (fun s => s ≠ "") := by
  unfold group_concat
  by_cases hf : l.filter (fun s => s ≠ "") = []
  · rw [if_pos hf, hf]; rfl
  · rw [if_neg hf]
    obtain ⟨x, xs, hx, hxne⟩ := filter_ne_empty_cons l hf
    have hjoined : joinSep (String.mk [c1, c2]) (l.filter (fun s => s ≠ "")) ≠ "" := by
      rw [hx]; exact joinSep_ne_empty _ x xs hxne
    rw [decodeField_some_some _ _ hjoined]
    exact pysplit2_join c1 c2 _ hf (fun s hs => h s (List.mem_of_mem_filter hs))

theorem decode_group_concat_2_free2 (c1 c2 : Char) (hne : c1 ≠ c2) (l : List String)
    (h : ∀ s ∈ l, free2 c1 c2 s.data = true) :
    decodeField (pysplit2 c1 c2) (group_concat (String.mk [c1, c2]) l)
      = l.filter (fun s => s ≠ "") := by
  unfold group_concat
  by_cases hf : l.filter (fun s => s ≠ "") = []
  · rw [if_pos hf, hf]; rfl
  · rw [if_neg hf]
    obtain ⟨x, xs, hx, hxne⟩ := filter_ne_empty_cons l hf
    have hjoined : joinSep (String.mk [c1, c2]) (l.filter (fun s => s ≠ "")) ≠ "" := by
      rw [hx]; exact joinSep_ne_empty _ x xs hxne
    rw [decodeField_some_some _ _ hjoined]
    exact pysplit2_join_free2 c1 c2 hne _ hf
      (fun s hs => h s (List.mem_of_mem_filter hs))

/-! ## Data model -/

/-- The `GCDCredit` TypedDict of `gcd.py`. -/
structure GCDCredit where
  name : String
  gcd_role : String
  deriving DecidableEq, Repr

/-- A dynamically typed Python value, needed because `_format_gcd_issue` puts
an empty string in the `characters` slot when the column is absent although
its declared type is a list. -/
inductive PyVal where
  | str (s : String)
  | list (l : List String)
  deriving DecidableEq, Repr

/-- Row returned by the series issue-list queries (summary shape).  The two
story columns are selected only by the with-stories query and can be NULL. -/
structure RowS where
  id : Int
  key_date : Option String
  number : Option String
  issue_title : Option String
  series_id : Int
  story_titles : Option (Option String)
  synopses : Option (Option String)
  deriving DecidableEq, Repr

/-- Row returned by the single-issue queries (complete shape).  The story
columns are absent (`none`) in the without-stories fallback query.  The
`characters` column, when selected, is a non-null TEXT column of
`gcd_story`, hence a single `Option`. -/
structure RowC where
  id : Int
  key_date : Option String
  number : Option String
  issue_title : Option String
  series_id : Int
  issue_notes : Option String
  volume : Option Int
  maturity_rating : Option String
  characters : Option String
  country : Option String
  country_iso : Option String
  language : Option String
  language_iso : Option String
  story_titles : Option (Option String)
  genres : Option (Option String)
  synopses : Option (Option String)
  story_ids : Option (Option String)
  deriving DecidableEq, Repr

/-- The `GCDIssue` dict as built by `_format_gcd_issue(row, complete=True)`. -/
structure GCDIssueC where
  id : Int
  key_date : Option String
  number : Option String
  issue_title : Option String
  series_id : Int
  issue_notes : Option String
  volume : Option Int
  maturity_rating : Option String
  characters : PyVal
  country : Option String
  country_iso : Option String
  story_ids : List String
  language : Option String
  language_iso : Option String
  story_titles : List String
  genres : List String
  synopses : List String
  alt_image_urls : List String
  credits : List GCDCredit
  image : String
  deriving DecidableEq, Repr

/-- The `GCDIssue` dict as built by `_format_gcd_issue(row)` (summary shape). -/
structure GCDIssueS where
  id : Int
  key_date : Option String
  number : Option String
  issue_title : Option String
  series_id : Int
  story_titles : List String
  synopses : List String
  image : String
  alt_image_urls : List String
  deriving DecidableEq, Repr

/-- The `GCDSeries` dict as built by `_fetch_series_data` and `search_for_series`. -/
structure GCDSeries where
  id : Int
  name : String
  sort_name : Option String
  notes : Option String
  year_began : Option Int
  year_ended : Option Int
  count_of_issues : Option Int
  publisher_name : Option String
  format : Option String
  image : String
  cover_downloaded : Bool
  deriving DecidableEq, Repr

/-- Embeds `row_dict["characters"].split("; ") if "characters" in row_dict else ""`
from `_format_gcd_issue` (complete shape). -/
def decode_characters : Option String → PyVal
  | some s => PyVal.list (pysplit2 ';' ' ' s)
  | none => PyVal.str ""

/-- Embeds `_format_gcd_issue(row, complete=True)` of `gcd.py`. -/
def format_gcd_issue_complete (row : RowC) : GCDIssueC :=
  { id := row.id
    key_date := row.key_date
    number := row.number
    issue_title := row.issue_title
    series_id := row.series_id
    issue_notes := row.issue_notes
    volume := row.volume
    maturity_rating := row.maturity_rating
    characters := decode_characters row.characters
    country := row.country
    country_iso := row.country_iso
    story_ids := decodeField (pysplit1 '\n') row.story_ids
    language := row.language
    language_iso := row.language_iso
    story_titles := decodeField (pysplit1 '\n') row.story_titles
    genres := decodeField (pysplit1 '\n') row.genres
    synopses := decodeField (pysplit2 '\n' '\n') row.synopses
    alt_image_urls := []
    credits := []
    image := "" }

/-- Embeds `_format_gcd_issue(row)` of `gcd.py` (summary shape).  Note that both
story_titles and synopses are split on a single newline here. -/
def format_gcd_issue_summary (row : RowS) : GCDIssueS :=
  { id := row.id
    key_date := row.key_date
    number := row.number
    issue_title := row.issue_title
    series_id := row.series_id
    story_titles := decodeFieldSummary (pysplit1 '\n') row.story_titles
    synopses := decodeFieldSummary (pysplit1 '\n') row.synopses
    image := ""
    alt_image_urls := [] }

/-! ## Cover image resolver (`_find_issue_images`) -/

/-- Embeds `image.get("src").split("?")[0]`: strip the cache-busting query suffix. -/
def strip_query (src : String) : String := (pysplit1 '?' src).headD ""

/-- The loop `for i, image in enumerate(img_list)` of `_find_issue_images`. -/
def find_issue_images_loop : List String → Nat → String × List String → String × List String
  | [], _, acc => acc
  | imgsrc :: rest, i, (cover, variants) =>
    find_issue_images_loop rest (i + 1)
      (if i = 0 then (strip_query imgsrc, variants)
       else (cover, variants ++ [strip_query imgsrc]))

/-- Embeds `_find_issue_images` of `gcd.py`, applied to the list of img `src`
attributes with class `cover_img` extracted, in document order, from the
fetched page (the HTML parser is an external collaborator). -/
def find_issue_images (img_list : List String) : String × List String :=
  find_issue_images_loop img_list 0 ("", [])

/-! ## Credit merge engine (`_find_issue_credits`) -/

/-- Credit query results: the issue-level query returns `(role, name)` pairs
(`gcd_issue_credit.credit_name`, `gcd_creator_name_detail.name`) and the
per-story query returns `(name, role)` pairs
(`gcd_creator_name_detail.name`, `gcd_credit_type.name`), each in
query-result order.  Story ids are the strings produced by splitting the
aggregated story_ids column; the `int(story_id)` conversion is absorbed into
the keying of `story_credit_rows`. -/
structure CreditDB where
  issue_credit_rows : Int → List (String × String)
  story_credit_rows : String → List (String × String)

/-- Embeds `_find_issue_credits` of `gcd.py`: issue-level credits first, then the
loop `for story_id in story_id_list` appending each story credit list. -/
def find_issue_credits (db : CreditDB) (issue_id : Int) (story_id_list : List String) :
    List GCDCredit :=
  story_id_list.foldl
    (fun acc sid => acc ++ (db.story_credit_rows sid).map (fun r => ⟨r.1, r.2⟩))
    ((db.issue_credit_rows issue_id).map (fun r => ⟨r.2, r.1⟩))

/-! ## Metadata normalizer (`_map_comic_issue_to_metadata`) -/

/-- The loop `for i, title in enumerate(issue["story_titles"])` of the
description branch: `title` is checked together with `issue["synopses"][i]`
for truthiness before being appended. -/
def desc_loop (synopses : List String) : List String → Nat → String → String
  | [], _, acc => acc
  | title :: rest, i, acc =>
    desc_loop synopses rest (i + 1)
      (if title ≠ "" ∧ synopses.getD i "" ≠ ""
       then acc ++ title ++ ": " ++ synopses.getD i "" ++ "\n\n"
       else acc)

/-- The description computation of `_map_comic_issue_to_metadata`: both
branches overwrite the initial `issue_notes` assignment, so the result
depends only on the two lists. -/
def map_description (story_titles synopses : List String) : String :=
  if synopses.length = story_titles.length then desc_loop synopses story_titles 0 ""
  else joinSep "\n\n" synopses

/-- Modelled from the wording of the spec, for comparison with
`map_description`: pair each non-empty title with its aligned non-empty
synopsis and concatenate the rendered pairs in order. -/
def spec_description_pairs (story_titles synopses : List String) : String :=
  (story_titles.zip synopses).foldl
    (fun acc q => if q.1 ≠ "" ∧ q.2 ≠ "" then acc ++ q.1 ++ ": " ++ q.2 ++ "\n\n" else acc)
    ""

/-- The issue dict as consumed by `_map_comic_issue_to_metadata`: the keys
always present in both shapes are plain fields, the keys present only in the
complete shape are `Option` (absent = `none`, matching `dict.get`). -/
structure GCDIssueView where
  id : Int
  key_date : Option String
  number : Option String
  issue_title : Option String
  series_id : Int
  issue_notes : Option String
  volume : Option Int
  maturity_rating : Option String
  characters : Option PyVal
  country : Option String
  language_iso : Option String
  story_titles : List String
  genres : Option (List String)
  synopses : List String
  image : String
  alt_image_urls : List String
  credits : Option (List GCDCredit)
  deriving DecidableEq, Repr

def GCDIssueC.toView (i : GCDIssueC) : GCDIssueView :=
  { id := i.id, key_date := i.key_date, number := i.number,
    issue_title := i.issue_title, series_id := i.series_id,
    issue_notes := i.issue_notes, volume := i.volume,
    maturity_rating := i.maturity_rating, characters := some i.characters,
    country := i.country, language_iso := i.language_iso,
    story_titles := i.story_titles, genres := some i.genres,
    synopses := i.synopses, image := i.image,
    alt_image_urls := i.alt_image_urls, credits := some i.credits }

def GCDIssueS.toView (i : GCDIssueS) : GCDIssueView :=
  { id := i.id, key_date := i.key_date, number := i.number,
    issue_title := i.issue_title, series_id := i.series_id,
    issue_notes := none, volume := none, maturity_rating := none,
    characters := none, country := none, language_iso := none,
    story_titles := i.story_titles, genres := none,
    synopses := i.synopses, image := i.image,
    alt_image_urls := i.alt_image_urls, credits := none }

/-- External comicapi helpers, specified only at their interface boundary:
`utils.xlate`, `utils.xlate_int`, `IssueString(...).as_string()`,
`utils.parse_date_str` (returning day, month, year) and
`GenericMetadata.add_credit`. -/
structure Ext where
  int_str : Int → Option String
  xlate : Option String → Option String
  xlate_int : Option Int → Option Int
  issue_string : Option String → Option String
  parse_date : String → Option Int × Option Int × Option Int
  add_credit : List GCDCredit → String → String → List GCDCredit

/-- The fields of comicapi `GenericMetadata` that `gcd.py` assigns.  A fresh
`GenericMetadata()` is the record with every default. -/
structure GenericMetadata where
  tag_origin : Option (String × String) := none
  issue_id : Option String := none
  series_id : Option String := none
  publisher : Option String := none
  issue : Option String := none
  series : Option String := none
  cover_image : Option String := none
  alternate_images : List String := []
  characters : Option PyVal := none
  credits : List GCDCredit := []
  title : Option String := none
  genres : Option (List String) := none
  issue_count : Option Int := none
  description : Option String := none
  web_link : Option String := none
  volume : Option Int := none
  day : Option Int := none
  month : Option Int := none
  year : Option Int := none
  language : Option String := none
  country : Option String := none
  format : Option String := none
  maturity_rating : Option String := none
  deriving DecidableEq, Repr

/-- A fresh `GenericMetadata()`: the empty record returned on the no-match paths. -/
def GenericMetadata.empty : GenericMetadata := {}

/-- Python truthiness of the optional `characters` value. -/
def truthyPV : Option PyVal → Bool
  | none => false
  | some (.str s) => s ≠ ""
  | some (.list l) => l ≠ []

/-- Python truthiness of the optional `year_began` integer. -/
def truthyI : Option Int → Bool
  | none => false
  | some n => n ≠ 0

/-- Embeds `_map_comic_issue_to_metadata` of `gcd.py`. -/
def map_comic_issue_to_metadata (ext : Ext) (use_series_start_as_volume : Bool)
    (issue : GCDIssueView) (series : GCDSeries) : GenericMetadata :=
  let dmy : Option Int × Option Int × Option Int :=
    if truthyS issue.key_date then ext.parse_date (issue.key_date.getD "")
    else if truthyI series.year_began then (none, none, ext.xlate_int series.year_began)
    else (none, none, none)
  { tag_origin := some ("gcd", "Grand Comics Database")
    issue_id := ext.int_str issue.id
    series_id := ext.int_str series.id
    publisher := ext.xlate series.publisher_name
    issue := ext.xlate (ext.issue_string issue.number)
    series := ext.xlate (some series.name)
    cover_image := some issue.image
    alternate_images := issue.alt_image_urls
    characters := if truthyPV issue.characters then issue.characters else none
    credits :=
      match issue.credits with
      | some cs => cs.foldl (fun acc c => ext.add_credit acc c.name c.gcd_role) []
      | none => []
    title :=
      if truthyS issue.issue_title then issue.issue_title
      else if issue.story_titles ≠ [] then some (joinSep "; " issue.story_titles)
      else none
    genres := issue.genres
    issue_count := ext.xlate_int series.count_of_issues
    description := some (map_description issue.story_titles issue.synopses)
    web_link := some ("https://www.comics.org/" ++ "issue/" ++ toString issue.id)
    volume := if use_series_start_as_volume then series.year_began
              else ext.xlate_int issue.volume
    day := dmy.1
    month := dmy.2.1
    year := dmy.2.2
    language := issue.language_iso
    country := issue.country
    format := series.format
    maturity_rating := issue.maturity_rating }

/-! ## Resolution pipeline

Python exceptions are values of `PyError`.  `talkerData k` and
`talkerNetwork k` are the typed talker errors raised explicitly by `gcd.py`;
the remaining constructors are exceptions that no handler in `gcd.py`
catches: `jsonDecode` from `json.loads` on a malformed cached blob,
`typeError` from subscripting a `None` row, `unboundLocal` from reading
`issue_result` when neither single-issue query returned a row. -/

inductive PyError where
  | talkerData (sub : Nat)
  | talkerNetwork (sub : Nat)
  | jsonDecode
  | typeError
  | unboundLocal
  deriving DecidableEq, Repr

/-- The typed errors of the talker interface. -/
def PyError.isTyped : PyError → Bool
  | .talkerData _ => true
  | .talkerNetwork _ => true
  | _ => false

/-- Observable side effects of a resolution call, in order of occurrence. -/
inductive Effect where
  | cacheReadSeries
  | cacheReadIssues
  | cacheReadIssue
  | dbQuerySeries
  | dbIndex
  | dbQueryIssues
  | dbQueryIssueId
  | dbQueryCredits
  | netFetch
  | cacheWriteSeries (id : Int)
  | cacheWriteIssues (ids : List Int) (complete : Bool)
  deriving DecidableEq, Repr

/-- Opaque serialized cache payload. -/
abbrev Blob := Nat

/-- Row of the series query of `_fetch_series_data`. -/
structure SeriesRow where
  id : Int
  series_name : String
  sort_name : Option String
  notes : Option String
  year_began : Option Int
  year_ended : Option Int
  issue_count : Option Int
  publisher_name : Option String
  format : Option String
  deriving DecidableEq, Repr

/-- The environment of one resolution call: settings, cache contents, the
rows the relational store would return for the requested entity, and the
results of the external collaborators.  Query execution itself is assumed
fault-free except for `sqlite3.connect` on an empty path, which raises
`sqlite3.OperationalError`, caught by `gcd.py` and re-raised as
`TalkerDataError(name, 0, ...)`. -/
structure Env where
  db_file : String
  has_index : Bool
  download_gui_covers : Bool
  download_tag_covers : Bool
  use_series_start_as_volume : Bool
  ext : Ext
  series_cache : Option (Blob × Bool)
  issues_cache : List Blob
  issue_cache : Option (Blob × Bool)
  parse_series : Blob → Option GCDSeries
  parse_issue_blob : Blob → Option GCDIssueView
  series_row : Option SeriesRow
  series_image_result : Except PyError String
  rows_with_stories : List RowS
  rows_without : List RowS
  issue_rowC : Option RowC
  issue_rowC_fallback : Option RowC
  issue_id_row : Option Int
  credit_db : CreditDB
  cover_fetch : Except PyError (List String)

/-- Embeds `check_db_filename_not_empty` of `gcd.py`:
`TalkerDataError(name, 3, ...)` on an empty path. -/
def check_db_filename_not_empty (db_file : String) : Except PyError Unit :=
  if db_file = "" then .error (.talkerData 3) else .ok ()

/-- Embeds `check_create_index` of `gcd.py`: a no-op once the in-process flag is
set; otherwise it connects, which fails with the generic sub-kind 0 on an
empty path. -/
def check_create_index (env : Env) : Except PyError Unit × List Effect :=
  if env.has_index then (.ok (), [])
  else if env.db_file = "" then (.error (.talkerData 0), [.dbIndex])
  else (.ok (), [.dbIndex])

/-- Embeds `_fetch_series_data` of `gcd.py`.  The cached payload is returned by
`json.loads` only when the entry exists and is marked complete; a parse
failure there propagates.  `_find_series_image` is abstracted by
`env.series_image_result`. -/
def fetch_series_data (env : Env) : Except PyError GCDSeries × List Effect :=
  match env.series_cache with
  | some (blob, true) =>
    (match env.parse_series blob with
     | some s => .ok s
     | none => .error .jsonDecode, [.cacheReadSeries])
  | _ =>
    if env.db_file = "" then (.error (.talkerData 0), [.cacheReadSeries, .dbQuerySeries])
    else
      match env.series_row with
      | none => (.error .typeError, [.cacheReadSeries, .dbQuerySeries])
      | some row =>
        if env.download_gui_covers then
          match env.series_image_result with
          | .error e => (.error e, [.cacheReadSeries, .dbQuerySeries, .netFetch])
          | .ok img =>
            (.ok { id := row.id, name := row.series_name, sort_name := row.sort_name,
                   notes := row.notes, year_began := row.year_began,
                   year_ended := row.year_ended, count_of_issues := row.issue_count,
                   publisher_name := row.publisher_name, format := row.format,
                   image := img, cover_downloaded := true },
             [.cacheReadSeries, .dbQuerySeries, .netFetch, .cacheWriteSeries row.id])
        else
          (.ok { id := row.id, name := row.series_name, sort_name := row.sort_name,
                 notes := row.notes, year_began := row.year_began,
                 year_ended := row.year_ended, count_of_issues := row.issue_count,
                 publisher_name := row.publisher_name, format := row.format,
                 image := "", cover_downloaded := false },
           [.cacheReadSeries, .dbQuerySeries, .cacheWriteSeries row.id])

/-- The issue-list rows used by `fetch_issues_in_series`: the with-stories
query result if non-empty, else the without-stories fallback result. -/
def issues_rows (env : Env) : List RowS :=
  if env.rows_with_stories ≠ [] then env.rows_with_stories else env.rows_without

/-- Embeds `fetch_issues_in_series` of `gcd.py`.  Note the order: the issue cache is
read first, then `_fetch_series_data` runs, then the count gate decides; on
the re-query path `_fetch_series_data` runs a second time before the cache is
replaced with the fresh summary records (complete flag `False`). -/
def fetch_issues_in_series (env : Env) : Except PyError (List GenericMetadata) × List Effect :=
  match (fetch_series_data env).1 with
  | .error e => (.error e, .cacheReadIssues :: (fetch_series_data env).2)
  | .ok series =>
    if series.count_of_issues = some (env.issues_cache.length : Int) then
      match env.issues_cache.mapM env.parse_issue_blob with
      | none => (.error .jsonDecode, .cacheReadIssues :: (fetch_series_data env).2)
      | some cached =>
        (.ok (cached.map (fun i =>
            map_comic_issue_to_metadata env.ext env.use_series_start_as_volume i series)),
         .cacheReadIssues :: (fetch_series_data env).2)
    else
      match (check_create_index env).1 with
      | .error e =>
          (.error e, .cacheReadIssues :: (fetch_series_data env).2 ++ (check_create_index env).2)
      | .ok _ =>
        if env.db_file = "" then
          (.error (.talkerData 0),
           .cacheReadIssues :: (fetch_series_data env).2 ++ (check_create_index env).2
             ++ [.dbQueryIssues])
        else
          match (fetch_series_data env).1 with
          | .error e =>
              (.error e, .cacheReadIssues :: (fetch_series_data env).2
                ++ (check_create_index env).2 ++ [.dbQueryIssues] ++ (fetch_series_data env).2)
          | .ok series2 =>
            (.ok (((issues_rows env).map format_gcd_issue_summary).map (fun i =>
                map_comic_issue_to_metadata env.ext env.use_series_start_as_volume
                  i.toView series2)),
             .cacheReadIssues :: (fetch_series_data env).2 ++ (check_create_index env).2
               ++ [.dbQueryIssues] ++ (fetch_series_data env).2
               ++ [.cacheWriteIssues (((issues_rows env).map format_gcd_issue_summary).map
                     (fun i => i.id)) false])

/-- Embeds `_fetch_issue_by_issue_id` of `gcd.py`.  When neither single-issue query
returns a row, the local variable `issue_result` was never assigned and the
line `issue_result["credits"] = ...` raises `UnboundLocalError`. -/
def fetch_issue_by_issue_id (env : Env) (issue_id : Int) :
    Except PyError GCDIssueView × List Effect :=
  match env.issue_cache with
  | some (blob, true) =>
    (match env.parse_issue_blob blob with
     | some i => .ok i
     | none => .error .jsonDecode, [.cacheReadIssue])
  | _ =>
    match (check_create_index env).1 with
    | .error e => (.error e, .cacheReadIssue :: (check_create_index env).2)
    | .ok _ =>
      if env.db_file = "" then
        (.error (.talkerData 0),
         .cacheReadIssue :: (check_create_index env).2 ++ [.dbQueryIssueId])
      else
        match (match env.issue_rowC with
               | some r => some r
               | none => env.issue_rowC_fallback) with
        | none =>
          (.error .unboundLocal,
           .cacheReadIssue :: (check_create_index env).2 ++ [.dbQueryIssueId])
        | some row =>
          let base := format_gcd_issue_complete row
          let credits := find_issue_credits env.credit_db issue_id base.story_ids
          if env.download_gui_covers || env.download_tag_covers then
            match env.cover_fetch with
            | .error e =>
              (.error e, .cacheReadIssue :: (check_create_index env).2
                ++ [.dbQueryIssueId, .dbQueryCredits, .netFetch])
            | .ok srcs =>
              let issue_result :=
                { base with credits := credits,
                            image := (find_issue_images srcs).1,
                            alt_image_urls := (find_issue_images srcs).2 }
              (.ok issue_result.toView,
               .cacheReadIssue :: (check_create_index env).2
                 ++ [.dbQueryIssueId, .dbQueryCredits, .netFetch]
                 ++ [.cacheWriteIssues [issue_result.id] true])
          else
            let issue_result := { base with credits := credits }
            (.ok issue_result.toView,
             .cacheReadIssue :: (check_create_index env).2
               ++ [.dbQueryIssueId, .dbQueryCredits]
               ++ [.cacheWriteIssues [issue_result.id] true])

/-- Embeds `_fetch_issue_data_by_issue_id` of `gcd.py`. -/
def fetch_issue_data_by_issue_id (env : Env) (issue_id : Int) :
    Except PyError GenericMetadata × List Effect :=
  match (fetch_issue_by_issue_id env issue_id).1 with
  | .error e => (.error e, (fetch_issue_by_issue_id env issue_id).2)
  | .ok issue =>
    match (fetch_series_data env).1 with
    | .error e =>
        (.error e, (fetch_issue_by_issue_id env issue_id).2 ++ (fetch_series_data env).2)
    | .ok series =>
      (.ok (map_comic_issue_to_metadata env.ext env.use_series_start_as_volume issue series),
       (fetch_issue_by_issue_id env issue_id).2 ++ (fetch_series_data env).2)

/-- Embeds `_fetch_issue_data` of `gcd.py`: looks up the issue id for a
series/number pair.  `cur.fetchone()` returning `None` makes `row["id"]`
raise `TypeError`; an id of `0` is falsy and skips the delegation, falling
through to `return GenericMetadata()`. -/
def fetch_issue_data (env : Env) (series_id : Int) (issue_number : String) :
    Except PyError GenericMetadata × List Effect :=
  if env.db_file = "" then (.error (.talkerData 0), [.dbQueryIssueId])
  else
    match env.issue_id_row with
    | none => (.error .typeError, [.dbQueryIssueId])
    | some iid =>
      if iid ≠ 0 then
        ((fetch_issue_data_by_issue_id env iid).1,
         .dbQueryIssueId :: (fetch_issue_data_by_issue_id env iid).2)
      else (.ok GenericMetadata.empty, [.dbQueryIssueId])

/-- Embeds `fetch_comic_data` of `gcd.py`: the eager configuration check, then
dispatch on the truthiness of `issue_id` and of
`issue_number and series_id`. -/
def fetch_comic_data (env : Env) (issue_id : Option String) (series_id : Option String)
    (issue_number : String) : Except PyError GenericMetadata × List Effect :=
  match check_db_filename_not_empty env.db_file with
  | .error e => (.error e, [])
  | .ok _ =>
    if truthyS issue_id then
      fetch_issue_data_by_issue_id env ((issue_id.getD "").toInt?.getD 0)
    else if issue_number ≠ "" ∧ truthyS series_id then
      fetch_issue_data env ((series_id.getD "").toInt?.getD 0) issue_number
    else (.ok GenericMetadata.empty, [])

/-! ## Helper lemmas -/

theorem foldl_append_bind {α β : Type} (l : List α) (f : α → List β) (init : List β) :
    l.foldl (fun acc x => acc ++ f x) init = init ++ l.flatMap f := by
  induction l generalizing init with
  | nil => simp
  | cons a as ih => simp [ih, List.append_assoc]

theorem find_issue_images_loop_pos (us : List String) :
    ∀ (n : Nat) (cover : String) (variants : List String),
      find_issue_images_loop us (n + 1) (cover, variants)
        = (cover, variants ++ us.map strip_query) := by
  induction us with
  | nil => intro n cover variants; simp [find_issue_images_loop]
  | cons u us ih =>
    intro n cover variants
    show find_issue_images_loop us (n + 1 + 1)
        (if n + 1 = 0 then (strip_query u, variants)
         else (cover, variants ++ [strip_query u]))
      = (cover, variants ++ (strip_query u :: us.map strip_query))
    rw [if_neg (Nat.succ_ne_zero n), ih (n + 1)]
    simp

theorem find_issue_images_cons (u : String) (us : List String) :
    find_issue_images (u :: us) = (strip_query u, us.map strip_query) := by
  show find_issue_images_loop us (0 + 1)
      (if (0 : Nat) = 0 then (strip_query u, []) else ("", [] ++ [strip_query u]))
    = (strip_query u, us.map strip_query)
  rw [if_pos rfl, find_issue_images_loop_pos us 0]
  simp

theorem strip_query_no_q (s : String) (h : '?' ∉ s.data) : strip_query s = s := by
  unfold strip_query pysplit1
  rw [split1_no_occ '?' s.data h]
  rfl

theorem strip_query_append (a b : String) (h : '?' ∉ a.data) :
    strip_query (a ++ "?" ++ b) = a := by
  unfold strip_query pysplit1
  have hdata : (a ++ "?" ++ b).data = a.data ++ '?' :: b.data := by
    rw [string_data_append, string_data_append]
    simp
  rw [hdata, split1_append '?' a.data b.data h]
  rfl

theorem desc_loop_eq (ts : List String) :
    ∀ (ss pre : List String) (acc : String), ss.length = ts.length →
      desc_loop (pre ++ ss) ts pre.length acc
        = (ts.zip ss).foldl
            (fun a q => if q.1 ≠ "" ∧ q.2 ≠ "" then a ++ q.1 ++ ": " ++ q.2 ++ "\n\n" else a)
            acc := by
  induction ts with
  | nil =>
    intro ss pre acc h
    have : ss = [] := List.length_eq_zero.mp h
    subst this
    rfl
  | cons t ts' ih =>
    intro ss pre acc h
    cases ss with
    | nil => exact absurd h (by simp)
    | cons s ss' =>
      have hget : (pre ++ s :: ss').getD pre.length "" = s := by
        rw [List.getD_append_right pre (s :: ss') "" pre.length le_rfl]
        simp
      show desc_loop (pre ++ s :: ss') ts' (pre.length + 1)
          (if t ≠ "" ∧ (pre ++ s :: ss').getD pre.length "" ≠ ""
           then acc ++ t ++ ": " ++ (pre ++ s :: ss').getD pre.length "" ++ "\n\n"
           else acc) = _
      rw [hget]
      have hsplit : pre ++ s :: ss' = (pre ++ [s]) ++ ss' := by simp
      have hlen : pre.length + 1 = (pre ++ [s]).length := by simp
      rw [hsplit, hlen,
        ih ss' (pre ++ [s]) _ (by simpa using h)]
      simp

theorem map_description_eq_pairs (ts ss : List String) (h : ss.length = ts.length) :
    map_description ts ss = spec_description_pairs ts ss := by
  unfold map_description spec_description_pairs
  rw [if_pos h]
  have := desc_loop_eq ts ss [] "" h
  simpa using this

theorem map_description_fallback (ts ss : List String) (h : ss.length ≠ ts.length) :
    map_description ts ss = joinSep "\n\n" ss := by
  unfold map_description
  rw [if_neg h]

theorem check_create_index_ok (env : Env) (h : env.db_file ≠ "") :
    (check_create_index env).1 = .ok () := by
  unfold check_create_index
  by_cases hi : env.has_index
  · rw [if_pos hi]
  · rw [if_neg hi, if_neg h]

/-- Lemma: `_fetch_series_data` issues no issue-list query and writes no issue cache
entry, whatever the environment. -/
theorem fetch_series_data_effects (env : Env) :
    Effect.dbQueryIssues ∉ (fetch_series_data env).2
      ∧ ∀ ids c, Effect.cacheWriteIssues ids c ∉ (fetch_series_data env).2 := by
  unfold fetch_series_data
  constructor
  · split
    · simp
    · split
      · simp
      · split
        · simp
        · split
          · split
            · simp
            · simp
          · simp
  · intro ids c
    split
    · simp
    · split
      · simp
      · split
        · simp
        · split
          · split
            · simp
            · simp
          · simp

/-! ## Concrete instances used by witnesses and counterexamples -/

/-- Simple concrete instantiation of the external comicapi helpers. -/
def extW : Ext :=
  { int_str := fun i => some (toString i)
    xlate := fun s => s
    xlate_int := fun n => n
    issue_string := fun s => s
    parse_date := fun _ => (none, none, none)
    add_credit := fun acc n r => acc ++ [⟨n, r⟩] }

def cdbW : CreditDB :=
  { issue_credit_rows := fun _ => []
    story_credit_rows := fun _ => [] }

def seriesW : GCDSeries :=
  { id := 10, name := "Example Series", sort_name := none, notes := none,
    year_began := some 1999, year_ended := none, count_of_issues := some 1,
    publisher_name := some "Pub", format := none, image := "",
    cover_downloaded := false }

def srowW : SeriesRow :=
  { id := 10, series_name := "Example Series", sort_name := none, notes := none,
    year_began := some 1999, year_ended := none, issue_count := some 1,
    publisher_name := some "Pub", format := none }

def viewW : GCDIssueView :=
  { id := 77, key_date := some "1999-05-00", number := some "1",
    issue_title := some "T", series_id := 10, issue_notes := none, volume := none,
    maturity_rating := none, characters := none, country := none,
    language_iso := none, story_titles := ["A"], genres := none,
    synopses := ["S"], image := "", alt_image_urls := [], credits := none }

/-- Base environment: valid db path, warm index flag, cold caches, no
matching issue rows, all cover options off. -/
def envBase : Env :=
  { db_file := "gcd.db", has_index := true, download_gui_covers := false,
    download_tag_covers := false, use_series_start_as_volume := false,
    ext := extW, series_cache := none, issues_cache := [], issue_cache := none,
    parse_series := fun _ => none, parse_issue_blob := fun _ => none,
    series_row := some srowW, series_image_result := .ok "",
    rows_with_stories := [], rows_without := [],
    issue_rowC := none, issue_rowC_fallback := none, issue_id_row := none,
    credit_db := cdbW, cover_fetch := .ok [] }

/-- Environment with one cached, complete and parseable issue entry whose
series reports one issue. -/
def envW : Env :=
  { envBase with series_cache := some (0, true),
                 parse_series := fun _ => some seriesW,
                 issues_cache := [1],
                 parse_issue_blob := fun _ => some viewW }

/-- Environment whose cached series entry is complete but malformed, while
the relational row for the series is available. -/
def envMalformed : Env :=
  { envBase with series_cache := some (0, true) }

/-- Environment with an empty configured database path and cold caches. -/
def envEmptyDb : Env :=
  { envBase with db_file := "" }

/-- The summary row of the C4 counterexample: a synopses value containing a
double newline. -/
def rowSummaryX : RowS :=
  { id := 1, key_date := none, number := some "1", issue_title := none,
    series_id := 2, story_titles := none, synopses := some (some "A\n\nB") }

/-- A without-stories row of the complete shape: the story columns and the
characters column are absent from the row dictionary. -/
def rowFallback : RowC :=
  { id := 7, key_date := some "2001-01-00", number := some "1",
    issue_title := some "", series_id := 3, issue_notes := none, volume := none,
    maturity_rating := none, characters := none, country := none,
    country_iso := none, language := none, language_iso := none,
    story_titles := none, genres := none, synopses := none, story_ids := none }

/-! ## Claim theorems -/

/-- C1: for every issue resolution, the merged credit list equals the
issue-level credits in query-result order followed by the story-level
credits gathered by iterating the story-id list in order; its length is the
sum of the two source lengths (no deduplication), and an empty story-id list
yields exactly the issue-level credits. -/
theorem C1_find_issue_credits (db : CreditDB) (issue_id : Int)
    (story_id_list : List String) :
    find_issue_credits db issue_id story_id_list
      = (db.issue_credit_rows issue_id).map (fun r => ⟨r.2, r.1⟩)
        ++ story_id_list.flatMap
            (fun sid => (db.story_credit_rows sid).map (fun r => ⟨r.1, r.2⟩))
    ∧ (find_issue_credits db issue_id story_id_list).length
      = (db.issue_credit_rows issue_id).length
        + (story_id_list.map (fun sid => (db.story_credit_rows sid).length)).sum
    ∧ find_issue_credits db issue_id []
      = (db.issue_credit_rows issue_id).map (fun r => ⟨r.2, r.1⟩) := by
  refine ⟨?_, ?_, rfl⟩
  · unfold find_issue_credits
    exact foldl_append_bind _ _ _
  · unfold find_issue_credits
    rw [foldl_append_bind]
    rw [List.length_append, List.length_map]
    congr 1
    induction story_id_list with
    | nil => rfl
    | cons sid rest ih => simp [ih]

/-- C3 counterexample: on story titles `["Part One", "Part Two"]` and
synopses `["A hero rises.", "A villain falls."]` the code does not produce
the description claimed by the spec, which has a stray space after the
separator. -/
theorem C3_counterexample :
    map_description ["Part One", "Part Two"] ["A hero rises.", "A villain falls."]
      ≠ "Part One: A hero rises.\n\n Part Two: A villain falls.\n\n" := by
  decide

/-- C3 amended: the normalized description is `map_description` of the two
lists; on equal counts it is the in-order concatenation of
`title ++ ": " ++ synopsis ++ "\n\n"` over the aligned pairs with both parts
non-empty (no space between consecutive pairs), otherwise all synopses
joined with a double newline; the two concrete scenarios evaluate
accordingly. -/
theorem C3_amended :
    (∀ (ext : Ext) (b : Bool) (issue : GCDIssueView) (series : GCDSeries),
        (map_comic_issue_to_metadata ext b issue series).description
          = some (map_description issue.story_titles issue.synopses))
    ∧ (∀ ts ss : List String, ss.length = ts.length →
        map_description ts ss = spec_description_pairs ts ss)
    ∧ (∀ ts ss : List String, ss.length ≠ ts.length →
        map_description ts ss = joinSep "\n\n" ss)
    ∧ map_description ["Part One", "Part Two"] ["A hero rises.", "A villain falls."]
        = "Part One: A hero rises.\n\nPart Two: A villain falls.\n\n"
    ∧ map_description ["Part One", "Part Two"] ["A hero rises."] = "A hero rises." := by
  refine ⟨fun ext b issue series => rfl, map_description_eq_pairs,
    map_description_fallback, by decide, by decide⟩

theorem C3_amended_witness :
    map_description ["X"] ["s1", "s2"] = joinSep "\n\n" ["s1", "s2"]
    ∧ map_description ["X"] ["y"] = spec_description_pairs ["X"] ["y"] :=
  ⟨C3_amended.2.2.1 ["X"] ["s1", "s2"] (by decide),
   C3_amended.2.1 ["X"] ["y"] (by decide)⟩

/-- C4 counterexample, refuting two conjuncts of the claim at explicit
inputs.  First, the summary aggregation shape splits the synopses field on a
single newline, not the documented double newline: a value `"A\n\nB"`
decodes to `["A", "", "B"]`.  Second, the round-trip as claimed, for every
list of delimiter-free strings, fails for the double-newline delimiter: the
entries `"A\n"` and `"B"` are both free of the delimiter `"\n\n"`, yet they
encode to `"A\n\n\nB"`, which decodes to `["A", "\nB"]`. -/
theorem C4_counterexample :
    (format_gcd_issue_summary rowSummaryX).synopses = ["A", "", "B"]
    ∧ (format_gcd_issue_summary rowSummaryX).synopses ≠ ["A", "B"]
    ∧ free2 '\n' '\n' ("A\n" : String).data = true
    ∧ free2 '\n' '\n' ("B" : String).data = true
    ∧ decodeField (pysplit2 '\n' '\n') (group_concat "\n\n" ["A\n", "B"]) = ["A", "\nB"]
    ∧ (["A", "\nB"] : List String) ≠ ["A\n", "B"] := by
  refine ⟨rfl, by decide, by decide, by decide, by decide, by decide⟩

/-- C4 amended: the complete shape decodes story titles, genres and story
ids on a single newline, synopses on a double newline and characters on
`"; "`; the summary shape decodes both of its list fields, story titles and
synopses, on a single newline.  Encode-then-decode reproduces the list with
the empty entries dropped for every delimiter-free list in the case of the
single-newline fields (`'\n' ∉ s.data`) and of the `"; "`-separated
characters field (`free2 ';' ' ' s.data`, i.e. no occurrence of the
two-character delimiter, which leaves the entry whole under splitting); for
the double-newline synopses delimiter, where delimiter-freeness is not
sufficient (see the counterexample), the round-trip holds whenever no entry
contains a newline. -/
theorem C4_amended :
    (∀ r : RowC,
        (format_gcd_issue_complete r).story_titles
            = decodeField (pysplit1 '\n') r.story_titles
        ∧ (format_gcd_issue_complete r).genres
            = decodeField (pysplit1 '\n') r.genres
        ∧ (format_gcd_issue_complete r).story_ids
            = decodeField (pysplit1 '\n') r.story_ids
        ∧ (format_gcd_issue_complete r).synopses
            = decodeField (pysplit2 '\n' '\n') r.synopses
        ∧ (format_gcd_issue_complete r).characters = decode_characters r.characters)
    ∧ (∀ r : RowS,
        (format_gcd_issue_summary r).story_titles
            = decodeFieldSummary (pysplit1 '\n') r.story_titles
        ∧ (format_gcd_issue_summary r).synopses
            = decodeFieldSummary (pysplit1 '\n') r.synopses)
    ∧ (∀ l : List String, (∀ s ∈ l, ('\n' : Char) ∉ s.data) →
        decodeField (pysplit1 '\n') (group_concat "\n" l)
          = l.filter (fun s => s ≠ ""))
    ∧ (∀ l : List String, (∀ s ∈ l, ('\n' : Char) ∉ s.data) →
        decodeField (pysplit2 '\n' '\n') (group_concat "\n\n" l)
          = l.filter (fun s => s ≠ ""))
    ∧ (∀ l : List String, (∀ s ∈ l, free2 ';' ' ' s.data = true) →
        decodeField (pysplit2 ';' ' ') (group_concat "; " l)
          = l.filter (fun s => s ≠ ""))
    ∧ (∀ s : String, free2 ';' ' ' s.data = true → pysplit2 ';' ' ' s = [s])
    ∧ decodeField (pysplit1 '\n') (group_concat "\n" ["A", "", "B"]) = ["A", "B"] := by
  refine ⟨fun r => ⟨rfl, rfl, rfl, rfl, rfl⟩, fun r => ⟨rfl, rfl⟩, ?_, ?_, ?_, ?_,
    by decide⟩
  · intro l h
    rw [show ("\n" : String) = String.mk ['\n'] from rfl]
    exact decode_group_concat_1 '\n' l h
  · intro l h
    rw [show ("\n\n" : String) = String.mk ['\n', '\n'] from rfl]
    exact decode_group_concat_2 '\n' '\n' l h
  · intro l h
    rw [show ("; " : String) = String.mk [';', ' '] from rfl]
    exact decode_group_concat_2_free2 ';' ' ' (by decide) l h
  · intro s hs
    show (split2 ';' ' ' s.data).map (fun l => (⟨l⟩ : String)) = [s]
    rw [split2_of_free2 ';' ' ' s.data hs]
    simp [string_mk_data]

theorem C4_amended_witness :
    decodeField (pysplit2 '\n' '\n') (group_concat "\n\n" ["A", "", "B"]) = ["A", "B"] :=
  C4_amended.2.2.2.1 ["A", "", "B"] (by decide)

/-- C5: the cover resolver takes the cover-class images in document order,
strips everything from the first question mark on, returns the first
stripped URL as primary cover and the rest in order as variants; an empty
image list yields the empty primary cover and an empty variant list. -/
theorem C5_find_issue_images :
    find_issue_images [] = ("", [])
    ∧ (∀ (u : String) (us : List String),
        find_issue_images (u :: us) = (strip_query u, us.map strip_query))
    ∧ (∀ a b : String, '?' ∉ a.data → strip_query (a ++ "?" ++ b) = a)
    ∧ (∀ s : String, '?' ∉ s.data → strip_query s = s) :=
  ⟨rfl, find_issue_images_cons, strip_query_append, strip_query_no_q⟩

theorem C5_find_issue_images_witness :
    strip_query ("https://files1.comics.org/img/gcd/400.jpg" ++ "?" ++ "38448")
      = "https://files1.comics.org/img/gcd/400.jpg"
    ∧ find_issue_images ["a?1", "b?2", "c?3"] = ("a", ["b", "c"]) := by
  constructor
  · exact C5_find_issue_images.2.2.1 _ _ (by decide)
  · rw [C5_find_issue_images.2.1]
    rfl

/-- C9: evaluating the complete-shape decode on a without-stories row shows
that the absent characters column is set to the empty string, a value of
another type than the empty list required by the claim, while the other
absent list fields do default to the empty list. -/
theorem C9_characters_bug :
    (format_gcd_issue_complete rowFallback).characters = PyVal.str ""
    ∧ PyVal.str "" ≠ PyVal.list []
    ∧ (format_gcd_issue_complete rowFallback).story_ids = []
    ∧ (format_gcd_issue_complete rowFallback).story_titles = []
    ∧ (format_gcd_issue_complete rowFallback).genres = []
    ∧ (format_gcd_issue_complete rowFallback).synopses = []
    ∧ (format_gcd_issue_complete rowFallback).alt_image_urls = []
    ∧ (format_gcd_issue_complete rowFallback).credits = [] := by
  exact ⟨rfl, by decide, rfl, rfl, rfl, rfl, rfl, rfl⟩

/-- C2: `fetch_issues_in_series` serves the deserialized cached issue list
exactly when the number of cached entries equals the issue count of the
series record returned by `_fetch_series_data`, issuing no issue-list query
and writing no issue cache entry; in every other case it runs the full
issue-list query and replaces the cache with the freshly formatted rows. -/
theorem C2_cache_gate (env : Env) (series : GCDSeries) (cached : List GCDIssueView)
    (hs : (fetch_series_data env).1 = .ok series)
    (hp : env.issues_cache.mapM env.parse_issue_blob = some cached)
    (hdb : env.db_file ≠ "") :
    (series.count_of_issues = some (env.issues_cache.length : Int) →
      (fetch_issues_in_series env).1
        = .ok (cached.map (fun i =>
            map_comic_issue_to_metadata env.ext env.use_series_start_as_volume i series))
      ∧ Effect.dbQueryIssues ∉ (fetch_issues_in_series env).2
      ∧ (∀ ids c, Effect.cacheWriteIssues ids c ∉ (fetch_issues_in_series env).2))
    ∧ (series.count_of_issues ≠ some (env.issues_cache.length : Int) →
      (fetch_issues_in_series env).1
        = .ok (((issues_rows env).map format_gcd_issue_summary).map (fun i =>
            map_comic_issue_to_metadata env.ext env.use_series_start_as_volume
              i.toView series))
      ∧ Effect.dbQueryIssues ∈ (fetch_issues_in_series env).2
      ∧ Effect.cacheWriteIssues
          (((issues_rows env).map format_gcd_issue_summary).map (fun i => i.id)) false
          ∈ (fetch_issues_in_series env).2) := by
  constructor
  · intro hcount
    have heff : (fetch_issues_in_series env).2
        = .cacheReadIssues :: (fetch_series_data env).2 := by
      simp only [fetch_issues_in_series, hs, if_pos hcount, hp]
    refine ⟨?_, ?_, ?_⟩
    · simp only [fetch_issues_in_series, hs, if_pos hcount, hp]
    · rw [heff]
      intro hmem
      rcases List.mem_cons.mp hmem with h1 | h1
      · exact absurd h1 (by decide)
      · exact (fetch_series_data_effects env).1 h1
    · intro ids c
      rw [heff]
      intro hmem
      rcases List.mem_cons.mp hmem with h1 | h1
      · exact Effect.noConfusion h1
      · exact (fetch_series_data_effects env).2 ids c h1
  · intro hcount
    have hidx : (check_create_index env).1 = .ok () := check_create_index_ok env hdb
    refine ⟨?_, ?_, ?_⟩
    · simp only [fetch_issues_in_series, hs, if_neg hcount, hidx, if_neg hdb]
    · simp only [fetch_issues_in_series, hs, if_neg hcount, hidx, if_neg hdb]
      simp
    · simp only [fetch_issues_in_series, hs, if_neg hcount, hidx, if_neg hdb]
      simp

theorem C2_cache_gate_witness :
    (fetch_issues_in_series envW).1
      = .ok ([viewW].map (fun i =>
          map_comic_issue_to_metadata envW.ext envW.use_series_start_as_volume
            i seriesW)) :=
  ((C2_cache_gate envW seriesW [viewW] rfl rfl (by decide)).1 (by decide)).1

/-- C6 counterexample: with a complete cached series entry whose payload
fails to deserialize, `_fetch_series_data` raises the deserialization error
to the caller instead of falling back to the relational source, although the
source row is available and re-resolution would succeed. -/
theorem C6_counterexample :
    (fetch_series_data envMalformed).1 = .error .jsonDecode
    ∧ (fetch_series_data { envMalformed with series_cache := none }).1 = .ok seriesW
    ∧ PyError.jsonDecode.isTyped = false :=
  ⟨rfl, rfl, rfl⟩

/-- C6 amended: a cache entry marked complete whose payload fails to
deserialize makes both `_fetch_series_data` and `_fetch_issue_by_issue_id`
propagate the deserialization error to the caller; only an absent or
incomplete cache entry leads to re-resolution from the relational source. -/
theorem C6_amended :
    (∀ (env : Env) (blob : Blob), env.series_cache = some (blob, true) →
        env.parse_series blob = none →
        (fetch_series_data env).1 = .error .jsonDecode)
    ∧ (∀ (env : Env) (blob : Blob) (issue_id : Int),
        env.issue_cache = some (blob, true) →
        env.parse_issue_blob blob = none →
        (fetch_issue_by_issue_id env issue_id).1 = .error .jsonDecode) := by
  constructor
  · intro env blob hc hparse
    simp only [fetch_series_data, hc, hparse]
  · intro env blob issue_id hc hparse
    simp only [fetch_issue_by_issue_id, hc, hparse]

theorem C6_amended_witness :
    (fetch_series_data envMalformed).1 = .error .jsonDecode
    ∧ (fetch_issue_by_issue_id { envMalformed with issue_cache := some (0, true) } 1).1
        = .error .jsonDecode :=
  ⟨C6_amended.1 envMalformed 0 rfl rfl,
   C6_amended.2 { envMalformed with issue_cache := some (0, true) } 0 1 rfl rfl⟩

/-- C7: when the issue cache misses and neither the with-stories nor the
without-stories query returns a row, `_fetch_issue_by_issue_id` raises an
uncaught `UnboundLocalError`, and `_fetch_issue_data` on a series/number
pair with no matching row raises an uncaught `TypeError`; neither is a typed
talker error and neither is an empty metadata record. -/
theorem C7_no_match_crash :
    (fetch_issue_by_issue_id envBase 1).1 = .error .unboundLocal
    ∧ (fetch_issue_data envBase 5 "2").1 = .error .typeError
    ∧ PyError.unboundLocal.isTyped = false
    ∧ PyError.typeError.isTyped = false :=
  ⟨rfl, rfl, rfl, rfl⟩

/-- C8 counterexample: with an empty configured database path and a cold
cache, `fetch_issues_in_series` reaches the connection attempt and fails
with the generic `TalkerDataError` sub-kind 0, not the missing-configuration
sub-kind 3. -/
theorem C8_counterexample :
    (fetch_issues_in_series envEmptyDb).1 = .error (.talkerData 0)
    ∧ PyError.talkerData 0 ≠ PyError.talkerData 3 :=
  ⟨rfl, by decide⟩

/-- C8 amended: `fetch_comic_data` checks the configured path eagerly and
fails with `TalkerDataError` sub-kind 3 before any query, but
`fetch_issues_in_series` performs no such check: with an empty path and a
cold series cache it fails with the generic connection sub-kind 0. -/
theorem C8_amended :
    (∀ (env : Env) (issue_id series_id : Option String) (issue_number : String),
        env.db_file = "" →
        fetch_comic_data env issue_id series_id issue_number
          = (.error (.talkerData 3), []))
    ∧ (∀ env : Env, env.db_file = "" → env.series_cache = none →
        (fetch_issues_in_series env).1 = .error (.talkerData 0)) := by
  constructor
  · intro env issue_id series_id issue_number h
    simp only [fetch_comic_data, check_db_filename_not_empty, if_pos h]
  · intro env h hc
    have hs : (fetch_series_data env).1 = .error (.talkerData 0) := by
      simp only [fetch_series_data, hc, if_pos h]
    simp only [fetch_issues_in_series, hs]

theorem C8_amended_witness :
    fetch_comic_data envEmptyDb none none "" = (.error (.talkerData 3), [])
    ∧ (fetch_issues_in_series envEmptyDb).1 = .error (.talkerData 0) :=
  ⟨C8_amended.1 envEmptyDb none none "" rfl, C8_amended.2 envEmptyDb rfl rfl⟩

/-- C10: when `issue_id` is falsy and `issue_number and series_id` is falsy,
`fetch_comic_data` returns the fresh empty record immediately after the
configuration check, with no relational, cache or network effect. -/
theorem C10_fetch_comic_data_no_ids (env : Env) (issue_id series_id : Option String)
    (issue_number : String)
    (hdb : env.db_file ≠ "")
    (hid : ¬ truthyS issue_id = true)
    (hpair : ¬ (issue_number ≠ "" ∧ truthyS series_id = true)) :
    fetch_comic_data env issue_id series_id issue_number
      = (.ok GenericMetadata.empty, []) := by
  simp only [fetch_comic_data, check_db_filename_not_empty, if_neg hdb,
    if_neg hid, if_neg hpair]

theorem C10_fetch_comic_data_no_ids_witness :
    fetch_comic_data envBase none (some "10") ""
      = (.ok GenericMetadata.empty, []) :=
  C10_fetch_comic_data_no_ids envBase none (some "10") ""
    (by decide) (by decide) (by decide)

end GCD
